import Mathlib

set_option linter.unusedVariables false

/-!
Verification of the word-resolution cache and session-state layer of the
zenn-hack browser extension.

The embedding models the TypeScript sources:
* src/lib/storage.ts      — StorageManager, authStorage, wordCacheStorage
* background script       — getAuthToken, getUserId, getCachedWordData,
                            setCachedWordData, fetchWordData,
                            addFlashcardToUser, setCurrentWord and the
                            WORD_DETECTED message handler
* src/lib/api.ts          — ApiClient.request retry loop
* src/hooks/useWordData.ts — the cache key used by fetchWordData

The durable key-value store (browser.storage.local) is a flat map from
string keys to JSON values, modelled as a function from String to
Option JSVal.  Every storage operation is state-passing: it returns its
result together with the (possibly updated) store.  A StorageManager call
may fail (I/O or quota error inside the try block); the failure of one
call is injected through an explicit Bool argument.  Times are integers
(milliseconds, as produced by Date.now()).
-/

/-- The twelve part-of-speech values of src/types (type pos; capitalised
here because a Lean structure field cannot share its type name). -/
inductive Pos where
  | noun | pronoun | intransitiveVerb | transitiveVerb | adjective | adverb
  | auxiliaryVerb | preposition | article | interjection | conjunction | idiom
deriving DecidableEq, Repr

/-- The nested word object of WordData / CachedWordData. -/
structure WordInfo where
  wordId : String
  word : String
  coreMeaning : String
  explanation : String
deriving DecidableEq, Repr

/-- One element of the meanings array of WordData / CachedWordData. -/
structure Meaning where
  meaningId : String
  pos : Pos
  translation : String
  pronunciation : String
  exampleEng : String
  exampleJpn : String
deriving DecidableEq, Repr

/-- The media object of WordData / CachedWordData. -/
structure Media where
  mediaId : String
  meaningId : String
  mediaUrls : List String
deriving DecidableEq, Repr

/-- WordData of the background script; also the Omit of CachedWordData
without cachedAt taken by wordCacheStorage.setCachedWord. -/
structure WordData where
  flashcardId : String
  word : WordInfo
  meanings : List Meaning
  media : Media
deriving DecidableEq, Repr

/-- CachedWordData of storage.ts; StoredWordData of the background script:
WordData plus the cachedAt stamp. -/
structure CachedWordData where
  flashcardId : String
  word : WordInfo
  meanings : List Meaning
  media : Media
  cachedAt : Int
deriving DecidableEq, Repr

/-- The spread cache[word] = { ...data, cachedAt: now }. -/
def WordData.withCachedAt (d : WordData) (t : Int) : CachedWordData :=
  { flashcardId := d.flashcardId, word := d.word, meanings := d.meanings
    media := d.media, cachedAt := t }

/-- The TypeScript cast of a runtime StoredWordData back to WordData
(the cachedAt field is dropped in the model; at runtime it is merely
hidden by the type). -/
def CachedWordData.toWordData (d : CachedWordData) : WordData :=
  { flashcardId := d.flashcardId, word := d.word, meanings := d.meanings
    media := d.media }

/-- The currentWord value written by the background setCurrentWord:
an object { word, data, timestamp }. -/
structure CurrentWordData where
  word : String
  data : WordData
  timestamp : Int
deriving DecidableEq, Repr

/-- The authentication triple of storage.ts (interface AuthData). -/
structure AuthData where
  token : String
  userId : String
  email : String
deriving DecidableEq, Repr

/-- A JSON value as this extension stores it: the string credentials, the
serialized word-cache map, and the currentWord object.  Numbers and
booleans are included so that JavaScript truthiness at the read interface
is modelled on every falsy value, not just the empty string. -/
inductive JSVal where
  | str (s : String)
  | num (n : Int)
  | boolean (b : Bool)
  | cacheMap (m : List (String × CachedWordData))
  | current (c : CurrentWordData)
deriving DecidableEq, Repr

/-- JavaScript truthiness on stored values: the empty string, 0 and false
are falsy; every object (cache map, currentWord) is truthy. -/
def jsTruthy : JSVal → Bool
  | .str s => !(s = "")
  | .num n => !(n = 0)
  | .boolean b => b
  | .cacheMap _ => true
  | .current _ => true

/-- The idiom result[key] || null: an absent or falsy value reads as null. -/
def jsOrNull : Option JSVal → Option JSVal
  | some v => if jsTruthy v then some v else none
  | none => none

/-- The durable key-value store (browser.storage.local): a flat namespace
of independent JSON-serializable values. -/
def Store := String → Option JSVal

/-- The store with no key set. -/
def emptyStore : Store := fun _ => none

/-- Write one key of the store (browser.storage.local.set of one key, or
remove when the value is none). -/
def updateStore (s : Store) (k : String) (v : Option JSVal) : Store :=
  fun k' => if k' = k then v else s k'

/-- A persistent-store I/O failure (the error caught by every try block
around a browser.storage.local call). -/
inductive StorageError where
  | ioError
deriving DecidableEq, Repr

namespace StorageManager

/-- The raw browser.storage.local.get of one key, before the try/catch:
it either throws (fail) or returns the stored value. -/
def rawGet (k : String) (fail : Bool) (s : Store) :
    Except StorageError (Option JSVal × Store) :=
  if fail then .error .ioError else .ok (s k, s)

/-- The raw browser.storage.local.get of a key list: the sub-map of the
keys that are present. -/
def rawGetMultiple (keys : List String) (fail : Bool) (s : Store) :
    Except StorageError (List (String × JSVal) × Store) :=
  if fail then .error .ioError
  else .ok (keys.filterMap (fun k => (s k).map (fun v => (k, v))), s)

/-- The raw browser.storage.local.set of an object: every listed key is
written. -/
def rawSetMultiple (data : List (String × JSVal)) (fail : Bool) (s : Store) :
    Except StorageError (Unit × Store) :=
  if fail then .error .ioError
  else .ok ((), data.foldl (fun acc kv => updateStore acc kv.1 (some kv.2)) s)

/-- The raw browser.storage.local.remove of a key list. -/
def rawRemoveMultiple (keys : List String) (fail : Bool) (s : Store) :
    Except StorageError (Unit × Store) :=
  if fail then .error .ioError
  else .ok ((), keys.foldl (fun acc k => updateStore acc k none) s)

/-- StorageManager.get: try { return result[key] || null } catch { return null }. -/
def get (k : String) (fail : Bool) (s : Store) : Option JSVal × Store :=
  match rawGet k fail s with
  | .ok (v, s1) => (jsOrNull v, s1)
  | .error _ => (none, s)

/-- StorageManager.getMultiple: try { return result } catch { return {} }. -/
def getMultiple (keys : List String) (fail : Bool) (s : Store) :
    List (String × JSVal) × Store :=
  match rawGetMultiple keys fail s with
  | .ok (m, s1) => (m, s1)
  | .error _ => ([], s)

/-- StorageManager.set: try { set } catch { log }. -/
def set (k : String) (v : JSVal) (fail : Bool) (s : Store) : Unit × Store :=
  match rawSetMultiple [(k, v)] fail s with
  | .ok r => r
  | .error _ => ((), s)

/-- StorageManager.setMultiple: try { set } catch { log }. -/
def setMultiple (data : List (String × JSVal)) (fail : Bool) (s : Store) :
    Unit × Store :=
  match rawSetMultiple data fail s with
  | .ok r => r
  | .error _ => ((), s)

/-- StorageManager.remove: try { remove } catch { log }. -/
def remove (k : String) (fail : Bool) (s : Store) : Unit × Store :=
  match rawRemoveMultiple [k] fail s with
  | .ok r => r
  | .error _ => ((), s)

/-- StorageManager.removeMultiple: try { remove } catch { log }. -/
def removeMultiple (keys : List String) (fail : Bool) (s : Store) :
    Unit × Store :=
  match rawRemoveMultiple keys fail s with
  | .ok r => r
  | .error _ => ((), s)

/-- The raw browser.storage.local.clear. -/
def rawClear (fail : Bool) (_s : Store) : Except StorageError (Unit × Store) :=
  if fail then .error .ioError else .ok ((), emptyStore)

/-- StorageManager.clear: try { clear } catch { log }. -/
def clear (fail : Bool) (s : Store) : Unit × Store :=
  match rawClear fail s with
  | .ok r => r
  | .error _ => ((), s)

end StorageManager

-- The fixed storage keys of STORAGE_KEYS.
namespace STORAGE_KEYS

def AUTH_TOKEN : String := "authToken"

def USER_ID : String := "userId"

def USER_EMAIL : String := "userEmail"

def CURRENT_WORD : String := "currentWord"

def WORD_CACHE : String := "wordCache"

end STORAGE_KEYS

/-- Property access data[k] on an object modelled as a key-value list. -/
def lookupKey (m : List (String × JSVal)) (k : String) : Option JSVal :=
  match m with
  | [] => none
  | (k', v) :: rest => if k = k' then some v else lookupKey rest k

/-- Property access cache[word] on the serialized word-cache map. -/
def mapLookup (m : List (String × CachedWordData)) (k : String) :
    Option CachedWordData :=
  match m with
  | [] => none
  | (k', v) :: rest => if k = k' then some v else mapLookup rest k

/-- Property assignment cache[word] = v: replace in place, or append when
the key is new (JavaScript objects keep insertion order). -/
def mapInsert (m : List (String × CachedWordData)) (k : String)
    (v : CachedWordData) : List (String × CachedWordData) :=
  match m with
  | [] => [(k, v)]
  | (k', v') :: rest =>
    if k' = k then (k, v) :: rest else (k', v') :: mapInsert rest k v

/-- The idiom (value) || {} followed by keyed access on the word cache: an
absent or non-map value behaves as the empty map (a falsy value is replaced
by {}, and keyed access on a primitive finds no entry). -/
def cacheOf : Option JSVal → List (String × CachedWordData)
  | some (.cacheMap m) => m
  | _ => []

/-- The TypeScript cast of a stored credential field to string (the code
trusts the declared type; only strings are ever written under these keys). -/
def jsToString : JSVal → String
  | .str s => s
  | _ => ""

namespace authStorage

/-- authStorage.setAuthData: one setMultiple of the three credential keys. -/
def setAuthData (a : AuthData) (fail : Bool) (s : Store) : Unit × Store :=
  StorageManager.setMultiple
    [(STORAGE_KEYS.AUTH_TOKEN, .str a.token),
     (STORAGE_KEYS.USER_ID, .str a.userId),
     (STORAGE_KEYS.USER_EMAIL, .str a.email)] fail s

/-- authStorage.getAuthData: getMultiple of the three keys, then the
all-or-nothing truthiness gate data.authToken && data.userId &&
data.userEmail. -/
def getAuthData (fail : Bool) (s : Store) : Option AuthData × Store :=
  match StorageManager.getMultiple
      [STORAGE_KEYS.AUTH_TOKEN, STORAGE_KEYS.USER_ID, STORAGE_KEYS.USER_EMAIL]
      fail s with
  | (m, s1) =>
    match jsOrNull (lookupKey m STORAGE_KEYS.AUTH_TOKEN),
          jsOrNull (lookupKey m STORAGE_KEYS.USER_ID),
          jsOrNull (lookupKey m STORAGE_KEYS.USER_EMAIL) with
    | some t, some u, some e =>
      (some { token := jsToString t, userId := jsToString u
              email := jsToString e }, s1)
    | _, _, _ => (none, s1)

/-- authStorage.clearAuthData: one removeMultiple of the three keys. -/
def clearAuthData (fail : Bool) (s : Store) : Unit × Store :=
  StorageManager.removeMultiple
    [STORAGE_KEYS.AUTH_TOKEN, STORAGE_KEYS.USER_ID, STORAGE_KEYS.USER_EMAIL]
    fail s

end authStorage

namespace wordCacheStorage

/-- CACHE_EXPIRY: one hour in milliseconds. -/
def CACHE_EXPIRY : Int := 60 * 60 * 1000

/-- wordCacheStorage.getCachedWord: read the whole cache map, look the word
up, and return the entry only while now - cachedAt < CACHE_EXPIRY (lazy
expiry: a stale entry is ignored, not deleted). -/
def getCachedWord (word : String) (now : Int) (fail : Bool) (s : Store) :
    Option CachedWordData × Store :=
  match StorageManager.get STORAGE_KEYS.WORD_CACHE fail s with
  | (v, s1) =>
    match mapLookup (cacheOf v) word with
    | some cachedData =>
      if now - cachedData.cachedAt < CACHE_EXPIRY then (some cachedData, s1)
      else (none, s1)
    | none => (none, s1)

/-- wordCacheStorage.setCachedWord: read-modify-write of the whole cache
map, stamping cachedAt with now.  The get and the set each carry their own
failure input. -/
def setCachedWord (word : String) (data : WordData) (now : Int)
    (failGet failSet : Bool) (s : Store) : Unit × Store :=
  match StorageManager.get STORAGE_KEYS.WORD_CACHE failGet s with
  | (v, s1) =>
    StorageManager.set STORAGE_KEYS.WORD_CACHE
      (.cacheMap (mapInsert (cacheOf v) word (data.withCachedAt now)))
      failSet s1

end wordCacheStorage

/-- The result of one fetch call: a 2xx response with a parsed body, a
non-2xx response, or a thrown network error. -/
inductive FetchOutcome (α : Type) where
  | ok (body : α)
  | httpError (status : Nat)
  | netError
deriving DecidableEq, Repr

/-- Whether the fetch call succeeded (response.ok with a parsed body). -/
def FetchOutcome.isOk {α : Type} : FetchOutcome α → Bool
  | .ok _ => true
  | _ => false

/-- The error a failed fetch call surfaces: the HTTP-status Error thrown on
a non-2xx response, or the network error thrown by fetch itself. -/
inductive FetchError where
  | http (status : Nat)
  | net
deriving DecidableEq, Repr

/-- The error object of a failed attempt (only failures are converted). -/
def FetchOutcome.toError {α : Type} : FetchOutcome α → FetchError
  | .ok _ => .net
  | .httpError status => .http status
  | .netError => .net

namespace Background

/-- CACHE_EXPIRY of the background script: one hour in milliseconds. -/
def CACHE_EXPIRY : Int := 60 * 60 * 1000

/-- Background getAuthToken: result[authToken] || null (the try/catch
around the read returns null on a storage failure as well). -/
def getAuthToken (s : Store) : Option JSVal :=
  jsOrNull (s STORAGE_KEYS.AUTH_TOKEN)

/-- Background getUserId: result[userId] || null. -/
def getUserId (s : Store) : Option JSVal :=
  jsOrNull (s STORAGE_KEYS.USER_ID)

/-- Background getCachedWordData: cache = result[wordCache] || {}, then the
freshness gate cachedData && now - cachedAt < CACHE_EXPIRY.  No write. -/
def getCachedWordData (word : String) (now : Int) (s : Store) :
    Option CachedWordData × Store :=
  match mapLookup (cacheOf (s STORAGE_KEYS.WORD_CACHE)) word with
  | some cachedData =>
    if now - cachedData.cachedAt < CACHE_EXPIRY then (some cachedData, s)
    else (none, s)
  | none => (none, s)

/-- Background setCachedWordData: read-modify-write of the whole cache map,
stamping cachedAt with now. -/
def setCachedWordData (word : String) (data : WordData) (now : Int)
    (s : Store) : Unit × Store :=
  ((), updateStore s STORAGE_KEYS.WORD_CACHE
    (some (.cacheMap
      (mapInsert (cacheOf (s STORAGE_KEYS.WORD_CACHE)) word
        (data.withCachedAt now)))))

/-- Background setCurrentWord: overwrite the currentWord slot with
{ word, data, timestamp: now }. -/
def setCurrentWord (word : String) (data : WordData) (now : Int)
    (s : Store) : Unit × Store :=
  ((), updateStore s STORAGE_KEYS.CURRENT_WORD
    (some (.current { word := word, data := data, timestamp := now })))

/-- Background fetchWordData: serve from cache when fresh, otherwise one
single fetch (outcomes 1); a non-2xx response or a thrown network error
yields null.  On success the record is cached.  The result carries the
number of fetch calls performed. -/
def fetchWordData (word : String) (now : Int)
    (outcomes : Nat → FetchOutcome WordData) (s : Store) :
    (Option WordData × Store) × Nat :=
  match getCachedWordData word now s with
  | (some cachedData, s1) => ((some cachedData.toWordData, s1), 0)
  | (none, s1) =>
    match outcomes 1 with
    | .ok data => ((some data, (setCachedWordData word data now s1).2), 1)
    | .httpError _ => ((none, s1), 1)
    | .netError => ((none, s1), 1)

/-- The WORD_DETECTED message handler: resolve the word, and only on a
non-null result write the currentWord slot. -/
def handleWordDetected (word : String) (now : Int)
    (outcomes : Nat → FetchOutcome WordData) (s : Store) : Store × Nat :=
  match fetchWordData word now outcomes s with
  | ((some data, s1), n) => ((setCurrentWord word data now s1).2, n)
  | ((none, s1), n) => (s1, n)

/-- Background addFlashcardToUser: gate on authToken and userId (email is
not consulted); when the gate passes, issue exactly one PUT whose non-2xx
response or thrown network error yields false.  The result carries the
number of network calls performed. -/
def addFlashcardToUser (flashcardId : String) (outcome : FetchOutcome Unit)
    (s : Store) : Bool × Nat :=
  match getAuthToken s, getUserId s with
  | some _, some _ =>
    match outcome with
    | .ok _ => (true, 1)
    | .httpError _ => (false, 1)
    | .netError => (false, 1)
  | _, _ => (false, 0)

end Background

namespace ApiClient

/-- The constructor default retryAttempts of ApiClient. -/
def retryAttempts : Nat := 3

/-- The retry loop of ApiClient.request: attempts are numbered from 1; a
successful attempt returns its body at once, a failed non-final attempt
delays and retries, and after the final failed attempt the last error is
thrown.  The result carries the number of fetch calls performed. -/
def requestAux {α : Type} (outcomes : Nat → FetchOutcome α)
    (attempt : Nat) (remaining : Nat) : Except FetchError α × Nat :=
  match remaining with
  | 0 => (.error .net, 0)
  | r + 1 =>
    match outcomes attempt with
    | .ok body => (.ok body, 1)
    | o =>
      if r = 0 then (.error o.toError, 1)
      else
        let res := requestAux outcomes (attempt + 1) r
        (res.1, res.2 + 1)

/-- ApiClient.request with the default configuration: up to retryAttempts
fetch attempts.  This client is defined in src/lib/api.ts but no caller in
the repository uses it for word resolution or mutation. -/
def request {α : Type} (outcomes : Nat → FetchOutcome α) :
    Except FetchError α × Nat :=
  requestAux outcomes 1 retryAttempts

end ApiClient

/-- Charwise String.prototype.toLowerCase on the basic latin range
(Char.toLower models the JavaScript behaviour for ASCII words). -/
def jsToLowerCase (s : String) : String :=
  ⟨s.data.map Char.toLower⟩

/-- Strip leading whitespace (one side of String.prototype.trim). -/
def dropWs (l : List Char) : List Char :=
  l.dropWhile Char.isWhitespace

/-- String.prototype.trim on the character list: strip whitespace from both
ends. -/
def jsTrimList (l : List Char) : List Char :=
  (dropWs ((dropWs l).reverse)).reverse

/-- String.prototype.trim. -/
def jsTrim (s : String) : String :=
  ⟨jsTrimList s.data⟩

/-- Modelled from the spec: the WordKey normalization of section 4.5 step 1,
trim then lowercase.  The source has no single normalize function: the
useWordData hook rejects blank input via word.trim() and then applies only
word.toLowerCase() before every cache access.  (Named normalizeWord because
Mathlib already declares normalize.) -/
def normalizeWord (s : String) : String :=
  jsToLowerCase (jsTrim s)

namespace useWordData

/-- The cache key the useWordData hook computes before calling
wordCacheStorage.getCachedWord and currentWordStorage.setCurrentWord:
word.toLowerCase(). -/
def cacheKey (w : String) : String :=
  jsToLowerCase w

end useWordData

/-- A concrete lexical record used to instantiate witnesses. -/
def sampleWordData : WordData :=
  { flashcardId := "fc-1"
    word := { wordId := "w1", word := "cat", coreMeaning := "a small cat"
              explanation := "feline" }
    meanings := []
    media := { mediaId := "m1", meaningId := "m1", mediaUrls := [] } }

/-- A store holding authToken and userId but no userEmail (the state the
SET_AUTH_DATA message produces). -/
def tokenUserStore : Store :=
  updateStore
    (updateStore emptyStore STORAGE_KEYS.AUTH_TOKEN (some (.str "tok")))
    STORAGE_KEYS.USER_ID (some (.str "uid"))

/-- A store holding the empty string under one key. -/
def falsyStore : Store :=
  updateStore emptyStore "draft" (some (.str ""))

/-- A store holding a full credential, written through authStorage. -/
def credStore : Store :=
  (authStorage.setAuthData
    { token := "tok", userId := "uid", email := "user@example.com" }
    false emptyStore).2

/-- A remote fetcher whose every attempt throws a network error. -/
def failingFetcher : Nat → FetchOutcome WordData :=
  fun _ => .netError

theorem updateStore_same (s : Store) (k : String) (v : Option JSVal) :
    updateStore s k v k = v := by
  simp [updateStore]

theorem updateStore_other (s : Store) (k k' : String) (v : Option JSVal)
    (h : k' ≠ k) : updateStore s k v k' = s k' := by
  simp [updateStore, h]

theorem mapLookup_mapInsert_self (m : List (String × CachedWordData))
    (k : String) (v : CachedWordData) :
    mapLookup (mapInsert m k v) k = some v := by
  induction m with
  | nil => simp [mapInsert, mapLookup]
  | cons hd tl ih =>
    by_cases h : hd.1 = k
    · simp [mapInsert, mapLookup, h]
    · have h2 : ¬(k = hd.1) := fun he => h he.symm
      simp [mapInsert, mapLookup, h, h2, ih]

/-- Claim C7: every StorageManager operation is total (it returns instead of
throwing), and on a store-level failure each read resolves to its safe
default (null for get, the empty map for getMultiple) and each write
resolves as a silent no-op that leaves the store unchanged. -/
theorem storage_wrapper_safe_defaults (s : Store) (k : String)
    (keys : List String) (v : JSVal) (data : List (String × JSVal)) :
    StorageManager.get k true s = (none, s) ∧
    StorageManager.getMultiple keys true s = ([], s) ∧
    StorageManager.set k v true s = ((), s) ∧
    StorageManager.setMultiple data true s = ((), s) ∧
    StorageManager.remove k true s = ((), s) ∧
    StorageManager.removeMultiple keys true s = ((), s) ∧
    StorageManager.clear true s = ((), s) := by
  refine ⟨rfl, rfl, rfl, rfl, rfl, rfl, rfl⟩

/-- Claim C8: a plain cache read never writes.  Both implementations of the
lookup (wordCacheStorage.getCachedWord and the background getCachedWordData)
return the store exactly as they found it, for every word, time and store
state — in particular an expired entry found on a read is ignored but stays
in the stored map. -/
theorem lazy_expiry_no_write (word : String) (now : Int) (fail : Bool)
    (s : Store) :
    (wordCacheStorage.getCachedWord word now fail s).2 = s ∧
    (Background.getCachedWordData word now s).2 = s := by
  constructor
  · cases fail
    · unfold wordCacheStorage.getCachedWord
      rcases h : mapLookup (cacheOf (jsOrNull (s STORAGE_KEYS.WORD_CACHE)))
          word with _ | d
      · simp [StorageManager.get, StorageManager.rawGet, h]
      · simp only [StorageManager.get, StorageManager.rawGet,
          Bool.false_eq_true, if_false, h]
        split <;> rfl
    · rfl
  · unfold Background.getCachedWordData
    rcases h : mapLookup (cacheOf (s STORAGE_KEYS.WORD_CACHE)) word
        with _ | d
    · simp [h]
    · simp only [h]
      split <;> rfl

/-- Claim C9: a stored falsy value (the empty string, 0 or false) reads as
null through StorageManager.get, exactly like a missing key. -/
theorem falsy_reads_absent (s : Store) (k : String) (v : JSVal)
    (hstored : s k = some v) (hfalsy : jsTruthy v = false) :
    StorageManager.get k false s = (none, s) := by
  unfold StorageManager.get StorageManager.rawGet
  simp [hstored, jsOrNull, hfalsy]

/-- Witness for C9: a store holding the empty string under a key reads as
null. -/
theorem falsy_reads_absent_witness :
    StorageManager.get "draft" false falsyStore = (none, falsyStore) :=
  falsy_reads_absent falsyStore "draft" (.str "") (by rfl) (by rfl)

theorem getCachedWord_after_setCachedWord (s : Store) (word : String)
    (r : WordData) (t0 t1 : Int) :
    (wordCacheStorage.getCachedWord word t1 false
        ((wordCacheStorage.setCachedWord word r t0 false false s).2)).1 =
      if t1 - t0 < wordCacheStorage.CACHE_EXPIRY then some (r.withCachedAt t0)
      else none := by
  unfold wordCacheStorage.setCachedWord wordCacheStorage.getCachedWord
  simp only [StorageManager.get, StorageManager.rawGet, StorageManager.set,
    StorageManager.rawSetMultiple, Bool.false_eq_true, if_false,
    List.foldl_cons, List.foldl_nil, updateStore_same]
  simp [jsOrNull, jsTruthy, cacheOf, mapLookup_mapInsert_self,
    WordData.withCachedAt]
  split <;> rfl

theorem bg_getCachedWordData_after_set (s : Store) (word : String)
    (r : WordData) (t0 t1 : Int) :
    (Background.getCachedWordData word t1
        ((Background.setCachedWordData word r t0 s).2)).1 =
      if t1 - t0 < Background.CACHE_EXPIRY then some (r.withCachedAt t0)
      else none := by
  unfold Background.setCachedWordData Background.getCachedWordData
  simp only [updateStore_same]
  simp [cacheOf, mapLookup_mapInsert_self, WordData.withCachedAt]
  split <;> rfl

/-- Claim C1: cache freshness round-trip.  After setCached(k, r) stamps
cachedAt = t0, a read at t1 with t1 - t0 < TTL (3,600,000 ms) returns the
stored entry (r with its stamp), and a read at t1 with t0 + TTL <= t1
returns null — in both implementations of the cache (storage.ts
wordCacheStorage and the background script), with no intervening write. -/
theorem cache_freshness_roundtrip (s : Store) (word : String) (r : WordData)
    (t0 t1 : Int) :
    (t1 - t0 < wordCacheStorage.CACHE_EXPIRY →
      (wordCacheStorage.getCachedWord word t1 false
          ((wordCacheStorage.setCachedWord word r t0 false false s).2)).1 =
        some (r.withCachedAt t0) ∧
      (Background.getCachedWordData word t1
          ((Background.setCachedWordData word r t0 s).2)).1 =
        some (r.withCachedAt t0)) ∧
    (t0 + wordCacheStorage.CACHE_EXPIRY ≤ t1 →
      (wordCacheStorage.getCachedWord word t1 false
          ((wordCacheStorage.setCachedWord word r t0 false false s).2)).1 =
        none ∧
      (Background.getCachedWordData word t1
          ((Background.setCachedWordData word r t0 s).2)).1 = none) := by
  constructor
  · intro h
    rw [getCachedWord_after_setCachedWord, bg_getCachedWordData_after_set]
    have h2 : t1 - t0 < Background.CACHE_EXPIRY := h
    rw [if_pos h, if_pos h2]
    exact ⟨rfl, rfl⟩
  · intro h
    rw [getCachedWord_after_setCachedWord, bg_getCachedWordData_after_set]
    have hn : ¬(t1 - t0 < wordCacheStorage.CACHE_EXPIRY) := by
      simp only [wordCacheStorage.CACHE_EXPIRY] at *
      omega
    have hn2 : ¬(t1 - t0 < Background.CACHE_EXPIRY) := hn
    rw [if_neg hn, if_neg hn2]
    exact ⟨rfl, rfl⟩

/-- Witness for C1: a concrete record stored at time 0 is returned at time
1000 and gone at time 3,600,000. -/
theorem cache_freshness_roundtrip_witness :
    (wordCacheStorage.getCachedWord "cat" 1000 false
        ((wordCacheStorage.setCachedWord "cat" sampleWordData 0 false false
          emptyStore).2)).1 = some (sampleWordData.withCachedAt 0) ∧
    (wordCacheStorage.getCachedWord "cat" 3600000 false
        ((wordCacheStorage.setCachedWord "cat" sampleWordData 0 false false
          emptyStore).2)).1 = none :=
  ⟨((cache_freshness_roundtrip emptyStore "cat" sampleWordData 0 1000).1
      (by decide)).1,
   ((cache_freshness_roundtrip emptyStore "cat" sampleWordData 0 3600000).2
      (by decide)).1⟩

theorem requestAux_always_fails {α : Type} (outcomes : Nat → FetchOutcome α)
    (h : ∀ n, (outcomes n).isOk = false) :
    ∀ r a, (ApiClient.requestAux outcomes a (r + 1)).2 = r + 1 ∧
      ∃ e, (ApiClient.requestAux outcomes a (r + 1)).1 = Except.error e := by
  intro r
  induction r with
  | zero =>
    intro a
    have ha := h a
    unfold ApiClient.requestAux
    rcases ho : outcomes a with b | st | _
    · rw [ho] at ha; simp [FetchOutcome.isOk] at ha
    · simp
    · simp
  | succ r ih =>
    intro a
    have ha := h a
    unfold ApiClient.requestAux
    rcases ho : outcomes a with b | st | _
    · rw [ho] at ha; simp [FetchOutcome.isOk] at ha
    · simpa using (ih (a + 1))
    · simpa using (ih (a + 1))

theorem apiClient_request_always_fails_three_attempts {α : Type}
    (outcomes : Nat → FetchOutcome α)
    (h : ∀ n, (outcomes n).isOk = false) :
    (ApiClient.request outcomes).2 = 3 ∧
    ∃ e, (ApiClient.request outcomes).1 = Except.error e :=
  requestAux_always_fails outcomes h 2 1

theorem bg_getCachedWordData_no_write (word : String) (now : Int)
    (s : Store) : (Background.getCachedWordData word now s).2 = s := by
  unfold Background.getCachedWordData
  rcases h : mapLookup (cacheOf (s STORAGE_KEYS.WORD_CACHE)) word with _ | d
  · simp [h]
  · simp only [h]
    split <;> rfl

/-- Counterexample to claim C2 as stated: with an always-failing fetcher and
an empty cache, the WORD_DETECTED resolution of the word cat performs exactly
1 fetch attempt, not 3.  (The 3-attempt retry loop lives in
ApiClient.request, which no resolution caller uses.) -/
theorem resolution_three_attempts_counterexample :
    (Background.handleWordDetected "cat" 0 failingFetcher emptyStore).2 = 1 ∧
    ((Background.handleWordDetected "cat" 0 failingFetcher emptyStore).2 = 3)
      = False :=
  ⟨rfl, eq_false (by decide)⟩

/-- Claim C2 as amended: for every word whose remote fetch always fails, and
whose cache lookup misses, the resolution performs exactly 1 fetch attempt
(the background fetch path does not retry), terminates with a null result
(the ERRORED state), and leaves the stored currentWord value unchanged from
its pre-call value. -/
theorem resolution_single_attempt_errored_frame (s : Store) (word : String)
    (now : Int) (outcomes : Nat → FetchOutcome WordData)
    (hfail : ∀ n, (outcomes n).isOk = false)
    (hmiss : (Background.getCachedWordData word now s).1 = none) :
    (Background.fetchWordData word now outcomes s).1.1 = none ∧
    (Background.fetchWordData word now outcomes s).2 = 1 ∧
    (Background.handleWordDetected word now outcomes s).1
        STORAGE_KEYS.CURRENT_WORD = s STORAGE_KEYS.CURRENT_WORD ∧
    (Background.handleWordDetected word now outcomes s).2 = 1 := by
  have hpair : Background.getCachedWordData word now s = (none, s) :=
    Prod.ext hmiss (bg_getCachedWordData_no_write word now s)
  have h1 := hfail 1
  unfold Background.handleWordDetected Background.fetchWordData
  rw [hpair]
  rcases ho : outcomes 1 with b | st | _
  · rw [ho] at h1; simp [FetchOutcome.isOk] at h1
  · simp
  · simp

/-- Witness for the amended C2: the failing resolution of cat on the empty
store makes one attempt, yields null and leaves currentWord untouched. -/
theorem resolution_single_attempt_errored_frame_witness :
    (Background.fetchWordData "cat" 0 failingFetcher emptyStore).1.1 = none ∧
    (Background.fetchWordData "cat" 0 failingFetcher emptyStore).2 = 1 ∧
    (Background.handleWordDetected "cat" 0 failingFetcher emptyStore).1
        STORAGE_KEYS.CURRENT_WORD = emptyStore STORAGE_KEYS.CURRENT_WORD ∧
    (Background.handleWordDetected "cat" 0 failingFetcher emptyStore).2 = 1 :=
  resolution_single_attempt_errored_frame emptyStore "cat" 0 failingFetcher
    (fun _ => rfl) rfl
theorem getAuthData_fst (s : Store) :
    (authStorage.getAuthData false s).1 =
      match jsOrNull (s STORAGE_KEYS.AUTH_TOKEN),
            jsOrNull (s STORAGE_KEYS.USER_ID),
            jsOrNull (s STORAGE_KEYS.USER_EMAIL) with
      | some t, some u, some e =>
        some { token := jsToString t, userId := jsToString u
               email := jsToString e }
      | _, _, _ => none := by
  unfold authStorage.getAuthData StorageManager.getMultiple
    StorageManager.rawGetMultiple
  simp only [Bool.false_eq_true, if_false, List.filterMap_cons,
    List.filterMap_nil]
  rcases h1 : s STORAGE_KEYS.AUTH_TOKEN with _ | v1 <;>
    rcases h2 : s STORAGE_KEYS.USER_ID with _ | v2 <;>
    rcases h3 : s STORAGE_KEYS.USER_EMAIL with _ | v3 <;>
    simp [lookupKey, STORAGE_KEYS.AUTH_TOKEN, STORAGE_KEYS.USER_ID,
      STORAGE_KEYS.USER_EMAIL, jsOrNull]
  by_cases t1 : jsTruthy v1 = true <;> by_cases t2 : jsTruthy v2 = true <;>
    by_cases t3 : jsTruthy v3 = true <;> simp [t1, t2, t3]

theorem setAuthData_store (a : AuthData) (s : Store) :
    ((authStorage.setAuthData a false s).2) STORAGE_KEYS.AUTH_TOKEN
        = some (.str a.token) ∧
    ((authStorage.setAuthData a false s).2) STORAGE_KEYS.USER_ID
        = some (.str a.userId) ∧
    ((authStorage.setAuthData a false s).2) STORAGE_KEYS.USER_EMAIL
        = some (.str a.email) := by
  unfold authStorage.setAuthData StorageManager.setMultiple
    StorageManager.rawSetMultiple
  simp [updateStore, STORAGE_KEYS.AUTH_TOKEN, STORAGE_KEYS.USER_ID,
    STORAGE_KEYS.USER_EMAIL]

theorem clearAuthData_store (s : Store) :
    ((authStorage.clearAuthData false s).2) STORAGE_KEYS.AUTH_TOKEN = none ∧
    ((authStorage.clearAuthData false s).2) STORAGE_KEYS.USER_ID = none ∧
    ((authStorage.clearAuthData false s).2) STORAGE_KEYS.USER_EMAIL = none := by
  unfold authStorage.clearAuthData StorageManager.removeMultiple
    StorageManager.rawRemoveMultiple
  simp [updateStore, STORAGE_KEYS.AUTH_TOKEN, STORAGE_KEYS.USER_ID,
    STORAGE_KEYS.USER_EMAIL]

theorem getAuthData_after_setAuthData (a : AuthData) (s : Store) :
    (authStorage.getAuthData false (authStorage.setAuthData a false s).2).1 =
      if a.token = "" ∨ a.userId = "" ∨ a.email = "" then none
      else some a := by
  obtain ⟨hA, hU, hE⟩ := setAuthData_store a s
  rw [getAuthData_fst, hA, hU, hE]
  by_cases ht : a.token = ""
  · simp [jsOrNull, jsTruthy, ht]
  · by_cases hu : a.userId = ""
    · simp [jsOrNull, jsTruthy, ht, hu]
    · by_cases he : a.email = ""
      · simp [jsOrNull, jsTruthy, ht, hu, he]
      · simp [jsOrNull, jsTruthy, ht, hu, he, jsToString]

theorem getAuthData_missing_none (s : Store)
    (h : s STORAGE_KEYS.AUTH_TOKEN = none ∨ s STORAGE_KEYS.USER_ID = none ∨
         s STORAGE_KEYS.USER_EMAIL = none) :
    (authStorage.getAuthData false s).1 = none := by
  rw [getAuthData_fst]
  rcases hA : jsOrNull (s STORAGE_KEYS.AUTH_TOKEN) with _ | t
  · rfl
  · rcases hU : jsOrNull (s STORAGE_KEYS.USER_ID) with _ | u
    · rfl
    · rcases hE : jsOrNull (s STORAGE_KEYS.USER_EMAIL) with _ | e
      · rfl
      · exfalso
        rcases h with h | h | h
        · rw [h] at hA; simp [jsOrNull] at hA
        · rw [h] at hU; simp [jsOrNull] at hU
        · rw [h] at hE; simp [jsOrNull] at hE

theorem getAuthData_after_clearAuthData (s : Store) :
    (authStorage.getAuthData false (authStorage.clearAuthData false s).2).1
      = none :=
  getAuthData_missing_none _ (Or.inl (clearAuthData_store s).1)

theorem getAuthData_some_gate (s : Store)
    (h : (authStorage.getAuthData false s).1.isSome = true) :
    (Background.getAuthToken s).isSome = true ∧
    (Background.getUserId s).isSome = true := by
  rw [getAuthData_fst] at h
  unfold Background.getAuthToken Background.getUserId
  rcases hA : jsOrNull (s STORAGE_KEYS.AUTH_TOKEN) with _ | t
  · rw [hA] at h; simp at h
  · rcases hU : jsOrNull (s STORAGE_KEYS.USER_ID) with _ | u
    · rw [hA, hU] at h; simp at h
    · exact ⟨rfl, rfl⟩

/-- Counterexample to claim C3 as stated: in the store the SET_AUTH_DATA
message produces (authToken and userId present, userEmail absent), the
stored credential is absent in the sense of getAuthData — it returns null —
yet addFlashcardToUser issues one network call (not zero) and even succeeds,
because the background gate checks only authToken and userId. -/
theorem mutation_gate_counterexample :
    (authStorage.getAuthData false tokenUserStore).1 = none ∧
    Background.addFlashcardToUser "fc-1" (FetchOutcome.ok ()) tokenUserStore
      = (true, 1) ∧
    ((Background.addFlashcardToUser "fc-1" (FetchOutcome.ok ())
        tokenUserStore).2 = 0) = False :=
  ⟨by decide, by decide, eq_false (by decide)⟩

/-- Claim C3 as amended: the mutation is gated on the background credential
pair.  If authToken or userId reads as absent (missing or falsy), then
addFlashcardToUser issues no network call and fails, returning false — the
authentication-required failure.  (The gate does not consult userEmail, so
getAuthData returning null does not by itself imply the gate trips.) -/
theorem mutation_gate_token_userId (flashcardId : String)
    (outcome : FetchOutcome Unit) (s : Store)
    (habsent : Background.getAuthToken s = none ∨
               Background.getUserId s = none) :
    Background.addFlashcardToUser flashcardId outcome s = (false, 0) := by
  unfold Background.addFlashcardToUser
  rcases habsent with h | h
  · rw [h]
  · rw [h]
    rcases Background.getAuthToken s with _ | t <;> rfl

/-- Witness for the amended C3: with nothing stored, the mutation returns
false after zero network calls. -/
theorem mutation_gate_token_userId_witness :
    Background.addFlashcardToUser "fc-1" (FetchOutcome.ok ()) emptyStore
      = (false, 0) :=
  mutation_gate_token_userId "fc-1" (FetchOutcome.ok ()) emptyStore
    (Or.inl rfl)

/-- Counterexample to claim C5 as stated: setCredential of a credential
whose token is the empty string completes, yet getCredential returns null
rather than a value equal to the stored credential. -/
theorem credential_roundtrip_counterexample :
    (authStorage.getAuthData false
        (authStorage.setAuthData
          { token := "", userId := "u", email := "e" } false
          emptyStore).2).1 = none ∧
    ((authStorage.getAuthData false
        (authStorage.setAuthData
          { token := "", userId := "u", email := "e" } false
          emptyStore).2).1 =
      some { token := "", userId := "u", email := "e" }) = False :=
  ⟨by decide, eq_false (by decide)⟩

/-- Claim C5 as amended: after clearCredential, getCredential returns null;
after setCredential(c) completes with all three fields non-empty,
getCredential returns a value equal to c; and getCredential never returns a
partially-populated object — on every store in which one of the three keys
is missing it returns null. -/
theorem credential_all_or_nothing (c : AuthData) (s s2 : Store) :
    (authStorage.getAuthData false
        (authStorage.clearAuthData false s).2).1 = none ∧
    (c.token ≠ "" → c.userId ≠ "" → c.email ≠ "" →
      (authStorage.getAuthData false
          (authStorage.setAuthData c false s).2).1 = some c) ∧
    (s2 STORAGE_KEYS.AUTH_TOKEN = none ∨ s2 STORAGE_KEYS.USER_ID = none ∨
        s2 STORAGE_KEYS.USER_EMAIL = none →
      (authStorage.getAuthData false s2).1 = none) := by
  refine ⟨getAuthData_after_clearAuthData s, ?_, getAuthData_missing_none s2⟩
  intro ht hu he
  rw [getAuthData_after_setAuthData]
  simp [ht, hu, he]

/-- Witness for the amended C5: a full non-empty credential round-trips, and
a cleared store reads as null. -/
theorem credential_all_or_nothing_witness :
    (authStorage.getAuthData false credStore).1 =
      some { token := "tok", userId := "uid", email := "user@example.com" } ∧
    (authStorage.getAuthData false
        (authStorage.clearAuthData false emptyStore).2).1 = none :=
  ⟨(credential_all_or_nothing
      { token := "tok", userId := "uid", email := "user@example.com" }
      emptyStore emptyStore).2.1 (by decide) (by decide) (by decide),
   (credential_all_or_nothing
      { token := "tok", userId := "uid", email := "user@example.com" }
      emptyStore emptyStore).1⟩

/-- Claim C6: with a stored credential present, addFlashcardToUser performs
exactly one network request, and a non-2xx response or a thrown network
error yields false — no retry is performed. -/
theorem mutation_single_attempt (flashcardId : String)
    (outcome : FetchOutcome Unit) (s : Store)
    (hcred : (authStorage.getAuthData false s).1.isSome = true) :
    (Background.addFlashcardToUser flashcardId outcome s).2 = 1 ∧
    (outcome.isOk = false →
      (Background.addFlashcardToUser flashcardId outcome s).1 = false) := by
  obtain ⟨hT, hU⟩ := getAuthData_some_gate s hcred
  unfold Background.addFlashcardToUser
  rcases hA : Background.getAuthToken s with _ | t
  · rw [hA] at hT; simp at hT
  · rcases hB : Background.getUserId s with _ | u
    · rw [hB] at hU; simp at hU
    · rcases outcome with b | st | _
      · exact ⟨rfl, by intro h; simp [FetchOutcome.isOk] at h⟩
      · exact ⟨rfl, fun _ => rfl⟩
      · exact ⟨rfl, fun _ => rfl⟩

/-- Witness for C6: with a full credential stored, a 500 response yields
false after exactly one request. -/
theorem mutation_single_attempt_witness :
    (Background.addFlashcardToUser "fc-1" (FetchOutcome.httpError 500)
        credStore).2 = 1 ∧
    (Background.addFlashcardToUser "fc-1" (FetchOutcome.httpError 500)
        credStore).1 = false :=
  ⟨(mutation_single_attempt "fc-1" (FetchOutcome.httpError 500) credStore
      (by decide)).1,
   (mutation_single_attempt "fc-1" (FetchOutcome.httpError 500) credStore
      (by decide)).2 rfl⟩

/-- Claim C10: a credential with an empty-string field counts as absent:
after setAuthData(c) with one of the three fields empty, getAuthData
returns null even though all three keys are present in the store, and the
set/get round-trip recovers c exactly when all three fields are non-empty. -/
theorem empty_credential_field_reads_absent (c : AuthData) (s : Store) :
    ((c.token = "" ∨ c.userId = "" ∨ c.email = "") →
      (authStorage.getAuthData false
          (authStorage.setAuthData c false s).2).1 = none ∧
      ((authStorage.setAuthData c false s).2) STORAGE_KEYS.AUTH_TOKEN
          = some (.str c.token) ∧
      ((authStorage.setAuthData c false s).2) STORAGE_KEYS.USER_ID
          = some (.str c.userId) ∧
      ((authStorage.setAuthData c false s).2) STORAGE_KEYS.USER_EMAIL
          = some (.str c.email)) ∧
    (c.token ≠ "" → c.userId ≠ "" → c.email ≠ "" →
      (authStorage.getAuthData false
          (authStorage.setAuthData c false s).2).1 = some c) := by
  constructor
  · intro h
    refine ⟨?_, setAuthData_store c s⟩
    rw [getAuthData_after_setAuthData, if_pos h]
  · intro ht hu he
    rw [getAuthData_after_setAuthData]
    simp [ht, hu, he]

/-- Witness for C10: an empty userId makes the round-trip read null while
both other fields are stored; a fully non-empty credential round-trips. -/
theorem empty_credential_field_reads_absent_witness :
    (authStorage.getAuthData false
        (authStorage.setAuthData { token := "t", userId := "", email := "e" }
          false emptyStore).2).1 = none ∧
    (authStorage.getAuthData false
        (authStorage.setAuthData
          { token := "t", userId := "u", email := "e" } false
          emptyStore).2).1 =
      some { token := "t", userId := "u", email := "e" } :=
  ⟨((empty_credential_field_reads_absent
      { token := "t", userId := "", email := "e" } emptyStore).1
      (Or.inr (Or.inl rfl))).1,
   (empty_credential_field_reads_absent
      { token := "t", userId := "u", email := "e" } emptyStore).2
      (by decide) (by decide) (by decide)⟩
theorem char_toNat_inj (a b : Char) (h : a.toNat = b.toNat) : a = b :=
  Char.eq_of_val_eq (UInt32.ext h)

theorem char_ofNat_toNat (n : Nat) (h : n < 55296) :
    (Char.ofNat n).toNat = n := by
  have hv : n.isValidChar := Or.inl h
  rw [Char.ofNat, dif_pos hv]
  simp [Char.ofNatAux, Char.toNat, UInt32.toNat]

theorem toLower_toNat (c : Char) :
    (Char.toLower c).toNat =
      if 65 ≤ c.toNat ∧ c.toNat ≤ 90 then c.toNat + 32 else c.toNat := by
  unfold Char.toLower
  by_cases h : c.toNat ≥ 65 ∧ c.toNat ≤ 90
  · rw [if_pos h, if_pos ⟨h.1, h.2⟩]
    exact char_ofNat_toNat _ (by omega)
  · rw [if_neg h, if_neg (fun hh => h ⟨hh.1, hh.2⟩)]

theorem isWhitespace_toNat (c : Char) :
    c.isWhitespace =
      (decide (c.toNat = 32) || decide (c.toNat = 9) ||
       decide (c.toNat = 13) || decide (c.toNat = 10)) := by
  unfold Char.isWhitespace
  have e1 : (c = ' ') ↔ (c.toNat = 32) :=
    ⟨fun h => by rw [h]; decide, fun h => char_toNat_inj _ _ h⟩
  have e2 : (c = '\t') ↔ (c.toNat = 9) :=
    ⟨fun h => by rw [h]; decide, fun h => char_toNat_inj _ _ h⟩
  have e3 : (c = '\x0d') ↔ (c.toNat = 13) :=
    ⟨fun h => by rw [h]; decide, fun h => char_toNat_inj _ _ h⟩
  have e4 : (c = '\n') ↔ (c.toNat = 10) :=
    ⟨fun h => by rw [h]; decide, fun h => char_toNat_inj _ _ h⟩
  rw [decide_eq_decide.mpr e1, decide_eq_decide.mpr e2,
    decide_eq_decide.mpr e3, decide_eq_decide.mpr e4]

theorem toLower_isWhitespace (c : Char) :
    (Char.toLower c).isWhitespace = c.isWhitespace := by
  rw [isWhitespace_toNat, isWhitespace_toNat, toLower_toNat]
  by_cases h : 65 ≤ c.toNat ∧ c.toNat ≤ 90
  · rw [if_pos h]
    have hl : ∀ m, 65 ≤ m → m ≤ 90 →
        (decide (m + 32 = 32) || decide (m + 32 = 9) ||
         decide (m + 32 = 13) || decide (m + 32 = 10)) = false := by
      intro m h1 h2
      simp only [Bool.or_eq_false_iff, decide_eq_false_iff_not]
      omega
    have hr : ∀ m, 65 ≤ m → m ≤ 90 →
        (decide (m = 32) || decide (m = 9) ||
         decide (m = 13) || decide (m = 10)) = false := by
      intro m h1 h2
      simp only [Bool.or_eq_false_iff, decide_eq_false_iff_not]
      omega
    rw [hl c.toNat h.1 h.2, hr c.toNat h.1 h.2]
  · rw [if_neg h]

theorem toLower_toLower (c : Char) :
    Char.toLower (Char.toLower c) = Char.toLower c := by
  apply char_toNat_inj
  rw [toLower_toNat (Char.toLower c), toLower_toNat c]
  by_cases h : 65 ≤ c.toNat ∧ c.toNat ≤ 90
  · rw [if_pos h]
    have hn : ¬(65 ≤ c.toNat + 32 ∧ c.toNat + 32 ≤ 90) := by omega
    rw [if_neg hn]
  · rw [if_neg h]
    rw [if_neg h]

theorem jsTrimList_eq_rdropWhile (l : List Char) :
    jsTrimList l = List.rdropWhile Char.isWhitespace (dropWs l) := rfl

theorem jsTrimList_idem (l : List Char) :
    jsTrimList (jsTrimList l) = jsTrimList l := by
  rw [jsTrimList_eq_rdropWhile, jsTrimList_eq_rdropWhile]
  unfold dropWs
  have key : List.dropWhile Char.isWhitespace
      (List.rdropWhile Char.isWhitespace
        (List.dropWhile Char.isWhitespace l))
      = List.rdropWhile Char.isWhitespace
          (List.dropWhile Char.isWhitespace l) := by
    rcases hr : List.rdropWhile Char.isWhitespace
        (List.dropWhile Char.isWhitespace l) with _ | ⟨a, t⟩
    · rfl
    · obtain ⟨u, hu⟩ := List.rdropWhile_prefix Char.isWhitespace
        (List.dropWhile Char.isWhitespace l)
      rw [hr] at hu
      have hh : (List.dropWhile Char.isWhitespace l).head? = some a := by
        rw [← hu]; rfl
      have hws := List.head?_dropWhile_not Char.isWhitespace l
      rw [hh] at hws
      simp only [] at hws
      exact List.dropWhile_cons_of_neg (by simp [hws])
  rw [key, List.rdropWhile_idempotent]

theorem jsTrimList_map_toLower (l : List Char) :
    jsTrimList (l.map Char.toLower) = (jsTrimList l).map Char.toLower := by
  have hcomp : (Char.isWhitespace ∘ Char.toLower) = Char.isWhitespace :=
    funext toLower_isWhitespace
  rw [jsTrimList_eq_rdropWhile, jsTrimList_eq_rdropWhile]
  unfold dropWs
  rw [List.dropWhile_map, hcomp]
  unfold List.rdropWhile
  rw [← List.map_reverse, List.dropWhile_map, hcomp, List.map_reverse]

theorem normalizeWord_data (w : String) :
    normalizeWord w = ⟨(jsTrimList w.data).map Char.toLower⟩ := rfl

theorem normalizeWord_idem (w : String) :
    normalizeWord (normalizeWord w) = normalizeWord w := by
  rw [normalizeWord_data (normalizeWord w), normalizeWord_data w]
  congr 1
  show (jsTrimList ((jsTrimList w.data).map Char.toLower)).map Char.toLower
      = (jsTrimList w.data).map Char.toLower
  rw [jsTrimList_map_toLower, jsTrimList_idem, List.map_map]
  simp [Function.comp, toLower_toLower]

/-- Claim C4: key normalization.  The normalization of a word key (trim
then lowercase) is idempotent, and the cache key the useWordData hook
computes for Example equals the one it computes for example, so the two
lookups hit the same entry of every store at every time. -/
theorem normalize_idempotent_same_entry :
    (∀ w : String, normalizeWord (normalizeWord w) = normalizeWord w) ∧
    useWordData.cacheKey "Example" = useWordData.cacheKey "example" ∧
    (∀ (s : Store) (now : Int) (fail : Bool),
      wordCacheStorage.getCachedWord (useWordData.cacheKey "Example") now
          fail s =
        wordCacheStorage.getCachedWord (useWordData.cacheKey "example") now
          fail s) := by
  have hkey : useWordData.cacheKey "Example" = useWordData.cacheKey "example" :=
    by decide
  exact ⟨normalizeWord_idem, hkey, fun s now fail => by rw [hkey]⟩
